import Mathlib

/-!
Shallow embedding of the retriever components of the
`haystack-core-integrations` slice:

* `integrations/opensearch/.../retrievers/opensearch/bm25_retriever.py`
  (`OpenSearchBM25Retriever`)
* `integrations/qdrant/.../retrievers/qdrant/retriever.py`
  (`QdrantEmbeddingRetriever`, `QdrantSparseEmbeddingRetriever`,
  `QdrantHybridRetriever`)

Python `Optional` values are `Option`, Python exceptions are modelled with
`Except`, Python floats are modelled as `ℚ` (only zero tests and equality
matter for these components), and filter dictionaries are association lists
from field name to constraint.  The document stores themselves and the
`apply_filter_policy` helper are external collaborators not present in the
slice; they are modelled from the spec where needed, with doc comments
saying so.
-/

namespace HaystackRetrievers

/-- Filter dictionaries: a mapping of field name to constraint, modelled as an
association list. -/
abbrev Filters := List (String × String)

/-- Python exceptions are modelled by their message/identity. -/
abbrev PyError := String

/-- Custom query templates (BM25 variant) are treated as atomic values; the
retriever only forwards them. -/
abbrev CustomQuery := String

/-- Retrieved record, as described by the spec glossary: content, score, and
optional embedding, produced entirely by the external store. -/
structure Document where
  id : String
  content : String
  score : Option ℚ
deriving DecidableEq

/-- Sparse embedding of a query (indices plus values), forwarded verbatim. -/
structure SparseEmbedding where
  indices : List Nat
  values : List ℚ
deriving DecidableEq

/-- Modelled from the spec: `FilterPolicy` is imported from the external
`haystack.document_stores.types` module, which is not part of this source
slice.  The spec defines it as the enum REPLACE / MERGE whose serialized
value is the string token "replace" or "merge". -/
inductive FilterPolicy
  | replace
  | merge
deriving DecidableEq

/-- Serialized token of a filter policy ("replace" / "merge"). -/
def FilterPolicy.value : FilterPolicy → String
  | .replace => "replace"
  | .merge => "merge"

/-- Modelled from the spec: `FilterPolicy.from_str` of the external haystack
package parses the string token back into the enum and fails on anything
else. -/
def FilterPolicy.from_str (s : String) : Except String FilterPolicy :=
  if s = "replace" then .ok .replace
  else if s = "merge" then .ok .merge
  else .error ("Unknown FilterPolicy type " ++ s)

/-- The `filter_policy` constructor argument is `Union[str, FilterPolicy]`. -/
inductive FilterPolicyArg
  | fp (p : FilterPolicy)
  | str (s : String)
deriving DecidableEq

/-- Resolution of the `filter_policy` constructor argument, transcribing
`filter_policy if isinstance(filter_policy, FilterPolicy) else
FilterPolicy.from_str(filter_policy)`. -/
def resolveFilterPolicy : FilterPolicyArg → Except String FilterPolicy
  | .fp p => .ok p
  | .str s => FilterPolicy.from_str s

/-- Field-level merge of default filters with runtime filters: the runtime
value wins per field, and every field of either side is present. -/
def mergeFilters (dflt rt : Filters) : Filters :=
  dflt.filter (fun p => (List.lookup p.1 rt).isNone) ++ rt

/-- Modelled from the spec: `apply_filter_policy` is imported from the
external `haystack.document_stores.types.filter_policy` module, which is not
part of this source slice.  The spec defines it: REPLACE uses the call-time
filters exactly when given, otherwise the configured defaults; MERGE combines
configured defaults with call-time filters by a field-level merge in which
the call-time value wins per field, and uses the defaults when no call-time
filters are given. -/
def apply_filter_policy (policy : FilterPolicy) (init_filters runtime_filters : Option Filters) :
    Option Filters :=
  match policy with
  | .replace =>
    match runtime_filters with
    | some f => some f
    | none => init_filters
  | .merge =>
    match runtime_filters with
    | some rf => some (mergeFilters (init_filters.getD []) rf)
    | none => init_filters

/-- Python `call or dflt` for an optional boolean call-time override against a
boolean default: the override is used only when it is truthy (i.e. `True`);
`None` and `False` both fall back to the default. -/
def pyOrBool (call : Option Bool) (dflt : Bool) : Bool :=
  match call with
  | some b => if b then b else dflt
  | none => dflt

/-- Python `call or dflt` for an optional integer call-time override against
an integer default: the override is used only when it is truthy (nonzero). -/
def pyOrInt (call : Option Int) (dflt : Int) : Int :=
  match call with
  | some n => if n = 0 then dflt else n
  | none => dflt

/-- Python `call or dflt` where both sides are optional floats
(`score_threshold`): the override is used only when it is truthy (nonzero);
`None` and `0.0` both fall back to the default. -/
def pyOrOptRat (call : Option ℚ) (dflt : Option ℚ) : Option ℚ :=
  match call with
  | some x => if x = 0 then dflt else some x
  | none => dflt

/-- Modelled from the spec: the Qdrant document store class lives in
`haystack_integrations.document_stores.qdrant`, outside this slice.  Only its
identity and its `to_dict`/`from_dict` round-trip matter here, so it is a bag
holding its own serialized configuration. -/
structure QdrantDocumentStore where
  cfg : String
deriving DecidableEq

/-- Modelled from the spec: the OpenSearch document store class lives in
`haystack_integrations.document_stores.opensearch`, outside this slice. -/
structure OpenSearchDocumentStore where
  cfg : String
deriving DecidableEq

/-- Serialized representation of a document store (nested inside the
retriever's `init_parameters`). -/
abbrev StoreDict := String

/-- Modelled from the spec: serializing a store yields its nested
configuration mapping. -/
def QdrantDocumentStore.to_dict (s : QdrantDocumentStore) : StoreDict := s.cfg

/-- Modelled from the spec: deserializing reconstructs an equivalent store. -/
def QdrantDocumentStore.from_dict (d : StoreDict) : QdrantDocumentStore := ⟨d⟩

/-- Modelled from the spec: serializing a store yields its nested
configuration mapping. -/
def OpenSearchDocumentStore.to_dict (s : OpenSearchDocumentStore) : StoreDict := s.cfg

/-- Modelled from the spec: deserializing reconstructs an equivalent store. -/
def OpenSearchDocumentStore.from_dict (d : StoreDict) : OpenSearchDocumentStore := ⟨d⟩

/-- A Python object supplied as the `document_store` constructor argument:
either one of the two store types or something else entirely.  The
constructors' `isinstance` guards branch on this. -/
inductive PyObject
  | qdrantStore (s : QdrantDocumentStore)
  | opensearchStore (s : OpenSearchDocumentStore)
  | other (tag : String)
deriving DecidableEq

/-- Output of every retriever's `run`: the mapping with the single key
`documents`. -/
structure RunOutput where
  documents : List Document
deriving DecidableEq

/-! ### QdrantEmbeddingRetriever -/

/-- Configuration state of `QdrantEmbeddingRetriever`, one field per
attribute assigned in `__init__`. -/
structure QdrantEmbeddingRetriever where
  _document_store : QdrantDocumentStore
  _filters : Option Filters
  _top_k : Int
  _scale_score : Bool
  _return_embedding : Bool
  _filter_policy : FilterPolicy
  _score_threshold : Option ℚ
deriving DecidableEq

/-- `QdrantEmbeddingRetriever.__init__`: rejects any `document_store` that is
not a `QdrantDocumentStore` with a `ValueError` before any state exists, then
stores the configuration. -/
def QdrantEmbeddingRetriever.init (document_store : PyObject) (filters : Option Filters)
    (top_k : Int) (scale_score : Bool) (return_embedding : Bool)
    (filter_policy : FilterPolicyArg) (score_threshold : Option ℚ) :
    Except String QdrantEmbeddingRetriever :=
  match document_store with
  | .qdrantStore s => do
    let pol ← resolveFilterPolicy filter_policy
    .ok { _document_store := s
          _filters := filters
          _top_k := top_k
          _scale_score := scale_score
          _return_embedding := return_embedding
          _filter_policy := pol
          _score_threshold := score_threshold }
  | _ => .error "document_store must be an instance of QdrantDocumentStore"

/-- `init_parameters` written by `QdrantEmbeddingRetriever.to_dict`. -/
structure QdrantEmbInitParameters where
  document_store : StoreDict
  filters : Option Filters
  top_k : Int
  filter_policy : String
  scale_score : Bool
  return_embedding : Bool
  score_threshold : Option ℚ
deriving DecidableEq

/-- Serialized form of a `QdrantEmbeddingRetriever` (the `init_parameters`
mapping; the constant class-path entry carries no information and is not
modelled). -/
structure QdrantEmbRetrieverDict where
  init_parameters : QdrantEmbInitParameters
deriving DecidableEq

/-- `QdrantEmbeddingRetriever.to_dict`: every configuration field is written,
the filter policy as its string token and the store via its own `to_dict`. -/
def QdrantEmbeddingRetriever.to_dict (r : QdrantEmbeddingRetriever) : QdrantEmbRetrieverDict :=
  { init_parameters :=
      { document_store := r._document_store.to_dict
        filters := r._filters
        top_k := r._top_k
        filter_policy := r._filter_policy.value
        scale_score := r._scale_score
        return_embedding := r._return_embedding
        score_threshold := r._score_threshold } }

/-- `QdrantEmbeddingRetriever.from_dict`: rebuilds the store, parses the
filter-policy token, and calls the constructor with the stored
`init_parameters`. -/
def QdrantEmbeddingRetriever.from_dict (data : QdrantEmbRetrieverDict) :
    Except String QdrantEmbeddingRetriever := do
  let ds := QdrantDocumentStore.from_dict data.init_parameters.document_store
  let pol ← FilterPolicy.from_str data.init_parameters.filter_policy
  QdrantEmbeddingRetriever.init (.qdrantStore ds) data.init_parameters.filters
    data.init_parameters.top_k data.init_parameters.scale_score
    data.init_parameters.return_embedding (.fp pol) data.init_parameters.score_threshold

/-- Argument record of the single store call
`QdrantDocumentStore._query_by_embedding`. -/
structure QueryByEmbeddingArgs where
  query_embedding : List ℚ
  filters : Option Filters
  top_k : Int
  scale_score : Bool
  return_embedding : Bool
  score_threshold : Option ℚ
deriving DecidableEq

/-- The resolved arguments `QdrantEmbeddingRetriever.run` forwards to
`_query_by_embedding`: the filter policy is applied to the filters and every
scalar override goes through Python `or` against the configured default. -/
def QdrantEmbeddingRetriever.queryArgs (r : QdrantEmbeddingRetriever)
    (query_embedding : List ℚ) (filters : Option Filters) (top_k : Option Int)
    (scale_score : Option Bool) (return_embedding : Option Bool)
    (score_threshold : Option ℚ) : QueryByEmbeddingArgs :=
  { query_embedding := query_embedding
    filters := apply_filter_policy r._filter_policy r._filters filters
    top_k := pyOrInt top_k r._top_k
    scale_score := pyOrBool scale_score r._scale_score
    return_embedding := pyOrBool return_embedding r._return_embedding
    score_threshold := pyOrOptRat score_threshold r._score_threshold }

/-- `QdrantEmbeddingRetriever.run`, parametrised by the external store's
behaviour on the single call it makes.  The result is paired with the
retriever's post-state; the body assigns no attribute, so the post-state is
the receiver.  A store exception is not caught. -/
def QdrantEmbeddingRetriever.run (r : QdrantEmbeddingRetriever)
    (store : QueryByEmbeddingArgs → Except PyError (List Document))
    (query_embedding : List ℚ) (filters : Option Filters) (top_k : Option Int)
    (scale_score : Option Bool) (return_embedding : Option Bool)
    (score_threshold : Option ℚ) :
    Except PyError RunOutput × QdrantEmbeddingRetriever :=
  match store (r.queryArgs query_embedding filters top_k scale_score return_embedding
      score_threshold) with
  | .ok docs => (.ok { documents := docs }, r)
  | .error e => (.error e, r)

/-! ### QdrantSparseEmbeddingRetriever -/

/-- Configuration state of `QdrantSparseEmbeddingRetriever`. -/
structure QdrantSparseEmbeddingRetriever where
  _document_store : QdrantDocumentStore
  _filters : Option Filters
  _top_k : Int
  _scale_score : Bool
  _return_embedding : Bool
  _filter_policy : FilterPolicy
  _score_threshold : Option ℚ
deriving DecidableEq

/-- `QdrantSparseEmbeddingRetriever.__init__`: same `isinstance` guard and
assignments as the dense variant. -/
def QdrantSparseEmbeddingRetriever.init (document_store : PyObject)
    (filters : Option Filters) (top_k : Int) (scale_score : Bool)
    (return_embedding : Bool) (filter_policy : FilterPolicyArg)
    (score_threshold : Option ℚ) : Except String QdrantSparseEmbeddingRetriever :=
  match document_store with
  | .qdrantStore s => do
    let pol ← resolveFilterPolicy filter_policy
    .ok { _document_store := s
          _filters := filters
          _top_k := top_k
          _scale_score := scale_score
          _return_embedding := return_embedding
          _filter_policy := pol
          _score_threshold := score_threshold }
  | _ => .error "document_store must be an instance of QdrantDocumentStore"

/-- `init_parameters` written by `QdrantSparseEmbeddingRetriever.to_dict`. -/
structure QdrantSparseInitParameters where
  document_store : StoreDict
  filters : Option Filters
  top_k : Int
  scale_score : Bool
  filter_policy : String
  return_embedding : Bool
  score_threshold : Option ℚ
deriving DecidableEq

/-- Serialized form of a `QdrantSparseEmbeddingRetriever`. -/
structure QdrantSparseRetrieverDict where
  init_parameters : QdrantSparseInitParameters
deriving DecidableEq

/-- `QdrantSparseEmbeddingRetriever.to_dict`: every configuration field is
written. -/
def QdrantSparseEmbeddingRetriever.to_dict (r : QdrantSparseEmbeddingRetriever) :
    QdrantSparseRetrieverDict :=
  { init_parameters :=
      { document_store := r._document_store.to_dict
        filters := r._filters
        top_k := r._top_k
        scale_score := r._scale_score
        filter_policy := r._filter_policy.value
        return_embedding := r._return_embedding
        score_threshold := r._score_threshold } }

/-- `QdrantSparseEmbeddingRetriever.from_dict`. -/
def QdrantSparseEmbeddingRetriever.from_dict (data : QdrantSparseRetrieverDict) :
    Except String QdrantSparseEmbeddingRetriever := do
  let ds := QdrantDocumentStore.from_dict data.init_parameters.document_store
  let pol ← FilterPolicy.from_str data.init_parameters.filter_policy
  QdrantSparseEmbeddingRetriever.init (.qdrantStore ds) data.init_parameters.filters
    data.init_parameters.top_k data.init_parameters.scale_score
    data.init_parameters.return_embedding (.fp pol) data.init_parameters.score_threshold

/-- Argument record of the single store call
`QdrantDocumentStore._query_by_sparse`. -/
structure QueryBySparseArgs where
  query_sparse_embedding : SparseEmbedding
  filters : Option Filters
  top_k : Int
  scale_score : Bool
  return_embedding : Bool
  score_threshold : Option ℚ
deriving DecidableEq

/-- The resolved arguments `QdrantSparseEmbeddingRetriever.run` forwards to
`_query_by_sparse` (same Python-`or` resolution as the dense variant). -/
def QdrantSparseEmbeddingRetriever.queryArgs (r : QdrantSparseEmbeddingRetriever)
    (query_sparse_embedding : SparseEmbedding) (filters : Option Filters)
    (top_k : Option Int) (scale_score : Option Bool) (return_embedding : Option Bool)
    (score_threshold : Option ℚ) : QueryBySparseArgs :=
  { query_sparse_embedding := query_sparse_embedding
    filters := apply_filter_policy r._filter_policy r._filters filters
    top_k := pyOrInt top_k r._top_k
    scale_score := pyOrBool scale_score r._scale_score
    return_embedding := pyOrBool return_embedding r._return_embedding
    score_threshold := pyOrOptRat score_threshold r._score_threshold }

/-- `QdrantSparseEmbeddingRetriever.run`: no catch around the store call, no
attribute assignment. -/
def QdrantSparseEmbeddingRetriever.run (r : QdrantSparseEmbeddingRetriever)
    (store : QueryBySparseArgs → Except PyError (List Document))
    (query_sparse_embedding : SparseEmbedding) (filters : Option Filters)
    (top_k : Option Int) (scale_score : Option Bool) (return_embedding : Option Bool)
    (score_threshold : Option ℚ) :
    Except PyError RunOutput × QdrantSparseEmbeddingRetriever :=
  match store (r.queryArgs query_sparse_embedding filters top_k scale_score
      return_embedding score_threshold) with
  | .ok docs => (.ok { documents := docs }, r)
  | .error e => (.error e, r)

/-! ### QdrantHybridRetriever -/

/-- Configuration state of `QdrantHybridRetriever` (no `scale_score`). -/
structure QdrantHybridRetriever where
  _document_store : QdrantDocumentStore
  _filters : Option Filters
  _top_k : Int
  _return_embedding : Bool
  _filter_policy : FilterPolicy
  _score_threshold : Option ℚ
deriving DecidableEq

/-- `QdrantHybridRetriever.__init__`: same `isinstance` guard. -/
def QdrantHybridRetriever.init (document_store : PyObject) (filters : Option Filters)
    (top_k : Int) (return_embedding : Bool) (filter_policy : FilterPolicyArg)
    (score_threshold : Option ℚ) : Except String QdrantHybridRetriever :=
  match document_store with
  | .qdrantStore s => do
    let pol ← resolveFilterPolicy filter_policy
    .ok { _document_store := s
          _filters := filters
          _top_k := top_k
          _return_embedding := return_embedding
          _filter_policy := pol
          _score_threshold := score_threshold }
  | _ => .error "document_store must be an instance of QdrantDocumentStore"

/-- `init_parameters` written by `QdrantHybridRetriever.to_dict`. -/
structure QdrantHybridInitParameters where
  document_store : StoreDict
  filters : Option Filters
  top_k : Int
  filter_policy : String
  return_embedding : Bool
  score_threshold : Option ℚ
deriving DecidableEq

/-- Serialized form of a `QdrantHybridRetriever`. -/
structure QdrantHybridRetrieverDict where
  init_parameters : QdrantHybridInitParameters
deriving DecidableEq

/-- `QdrantHybridRetriever.to_dict`: every configuration field is written. -/
def QdrantHybridRetriever.to_dict (r : QdrantHybridRetriever) : QdrantHybridRetrieverDict :=
  { init_parameters :=
      { document_store := r._document_store.to_dict
        filters := r._filters
        top_k := r._top_k
        filter_policy := r._filter_policy.value
        return_embedding := r._return_embedding
        score_threshold := r._score_threshold } }

/-- `QdrantHybridRetriever.from_dict`. -/
def QdrantHybridRetriever.from_dict (data : QdrantHybridRetrieverDict) :
    Except String QdrantHybridRetriever := do
  let ds := QdrantDocumentStore.from_dict data.init_parameters.document_store
  let pol ← FilterPolicy.from_str data.init_parameters.filter_policy
  QdrantHybridRetriever.init (.qdrantStore ds) data.init_parameters.filters
    data.init_parameters.top_k data.init_parameters.return_embedding (.fp pol)
    data.init_parameters.score_threshold

/-- Argument record of the single store call
`QdrantDocumentStore._query_hybrid`. -/
structure QueryHybridArgs where
  query_embedding : List ℚ
  query_sparse_embedding : SparseEmbedding
  filters : Option Filters
  top_k : Int
  return_embedding : Bool
  score_threshold : Option ℚ
deriving DecidableEq

/-- The resolved arguments `QdrantHybridRetriever.run` forwards to
`_query_hybrid`. -/
def QdrantHybridRetriever.queryArgs (r : QdrantHybridRetriever)
    (query_embedding : List ℚ) (query_sparse_embedding : SparseEmbedding)
    (filters : Option Filters) (top_k : Option Int) (return_embedding : Option Bool)
    (score_threshold : Option ℚ) : QueryHybridArgs :=
  { query_embedding := query_embedding
    query_sparse_embedding := query_sparse_embedding
    filters := apply_filter_policy r._filter_policy r._filters filters
    top_k := pyOrInt top_k r._top_k
    return_embedding := pyOrBool return_embedding r._return_embedding
    score_threshold := pyOrOptRat score_threshold r._score_threshold }

/-- `QdrantHybridRetriever.run`: no catch around the store call, no attribute
assignment. -/
def QdrantHybridRetriever.run (r : QdrantHybridRetriever)
    (store : QueryHybridArgs → Except PyError (List Document))
    (query_embedding : List ℚ) (query_sparse_embedding : SparseEmbedding)
    (filters : Option Filters) (top_k : Option Int) (return_embedding : Option Bool)
    (score_threshold : Option ℚ) :
    Except PyError RunOutput × QdrantHybridRetriever :=
  match store (r.queryArgs query_embedding query_sparse_embedding filters top_k
      return_embedding score_threshold) with
  | .ok docs => (.ok { documents := docs }, r)
  | .error e => (.error e, r)

/-! ### OpenSearchBM25Retriever -/

/-- Configuration state of `OpenSearchBM25Retriever`, one field per attribute
assigned in `__init__` (note `_filters` is never `None`: the constructor
stores `filters or {}`). -/
structure OpenSearchBM25Retriever where
  _document_store : OpenSearchDocumentStore
  _filters : Filters
  _fuzziness : String
  _top_k : Int
  _scale_score : Bool
  _all_terms_must_match : Bool
  _filter_policy : FilterPolicy
  _custom_query : Option CustomQuery
  _raise_on_failure : Bool
deriving DecidableEq

/-- `OpenSearchBM25Retriever.__init__`: rejects any `document_store` that is
not an `OpenSearchDocumentStore` with a `ValueError` before any state
exists; `_filters` is `filters or {}` (in Python, `None or {}` and
`{} or {}` are both `{}`, and a non-empty dict is itself, which coincides
with `Option.getD`). -/
def OpenSearchBM25Retriever.init (document_store : PyObject) (filters : Option Filters)
    (fuzziness : String) (top_k : Int) (scale_score : Bool)
    (all_terms_must_match : Bool) (filter_policy : FilterPolicyArg)
    (custom_query : Option CustomQuery) (raise_on_failure : Bool) :
    Except String OpenSearchBM25Retriever :=
  match document_store with
  | .opensearchStore s => do
    let pol ← resolveFilterPolicy filter_policy
    .ok { _document_store := s
          _filters := filters.getD []
          _fuzziness := fuzziness
          _top_k := top_k
          _scale_score := scale_score
          _all_terms_must_match := all_terms_must_match
          _filter_policy := pol
          _custom_query := custom_query
          _raise_on_failure := raise_on_failure }
  | _ => .error "document_store must be an instance of OpenSearchDocumentStore"

/-- `init_parameters` written by `OpenSearchBM25Retriever.to_dict`.  The
source passes exactly these keyword arguments to `default_to_dict`; in
particular there is no `all_terms_must_match` entry. -/
structure Bm25InitParameters where
  filters : Filters
  fuzziness : String
  top_k : Int
  scale_score : Bool
  document_store : StoreDict
  filter_policy : String
  custom_query : Option CustomQuery
  raise_on_failure : Bool
deriving DecidableEq

/-- Serialized form of an `OpenSearchBM25Retriever`. -/
structure Bm25RetrieverDict where
  init_parameters : Bm25InitParameters
deriving DecidableEq

/-- `OpenSearchBM25Retriever.to_dict`: writes filters, fuzziness, top_k,
scale_score, the nested store dict, the filter-policy token, custom_query
and raise_on_failure — and nothing else. -/
def OpenSearchBM25Retriever.to_dict (r : OpenSearchBM25Retriever) : Bm25RetrieverDict :=
  { init_parameters :=
      { filters := r._filters
        fuzziness := r._fuzziness
        top_k := r._top_k
        scale_score := r._scale_score
        document_store := r._document_store.to_dict
        filter_policy := r._filter_policy.value
        custom_query := r._custom_query
        raise_on_failure := r._raise_on_failure } }

/-- `OpenSearchBM25Retriever.from_dict`: rebuilds the store and the policy,
then calls the constructor with the stored `init_parameters`; any
constructor parameter without an entry in the dict — here
`all_terms_must_match` — takes its declared default (`False`), which is how
`default_from_dict(cls, data)` behaves. -/
def OpenSearchBM25Retriever.from_dict (data : Bm25RetrieverDict) :
    Except String OpenSearchBM25Retriever := do
  let ds := OpenSearchDocumentStore.from_dict data.init_parameters.document_store
  let pol ← FilterPolicy.from_str data.init_parameters.filter_policy
  OpenSearchBM25Retriever.init (.opensearchStore ds) (some data.init_parameters.filters)
    data.init_parameters.fuzziness data.init_parameters.top_k
    data.init_parameters.scale_score false (.fp pol)
    data.init_parameters.custom_query data.init_parameters.raise_on_failure

/-- Argument record of the single store call
`OpenSearchDocumentStore._bm25_retrieval`. -/
structure Bm25RetrievalArgs where
  query : String
  filters : Filters
  fuzziness : String
  top_k : Int
  scale_score : Bool
  all_terms_must_match : Bool
  custom_query : Option CustomQuery
deriving DecidableEq

/-- The resolved arguments `OpenSearchBM25Retriever.run` forwards to
`_bm25_retrieval`: the filter policy is applied first (then a leftover
`if filters is None` guard falls back to the configured filters), and every
scalar override is checked against `None` — not truthiness — before falling
back to its configured default. -/
def OpenSearchBM25Retriever.queryArgs (r : OpenSearchBM25Retriever) (query : String)
    (filters : Option Filters) (all_terms_must_match : Option Bool)
    (top_k : Option Int) (fuzziness : Option String) (scale_score : Option Bool)
    (custom_query : Option CustomQuery) : Bm25RetrievalArgs :=
  { query := query
    filters := (apply_filter_policy r._filter_policy (some r._filters) filters).getD r._filters
    fuzziness := fuzziness.getD r._fuzziness
    top_k := top_k.getD r._top_k
    scale_score := scale_score.getD r._scale_score
    all_terms_must_match := all_terms_must_match.getD r._all_terms_must_match
    custom_query :=
      match custom_query with
      | some cq => some cq
      | none => r._custom_query }

/-- `OpenSearchBM25Retriever.run`: `docs` starts as `[]`; the store call is
wrapped in try/except, and on failure either the exception is re-raised
(`raise_on_failure` true) or a warning is logged (not modelled) and the
still-empty `docs` is returned.  No attribute is assigned, so the post-state
is the receiver. -/
def OpenSearchBM25Retriever.run (r : OpenSearchBM25Retriever)
    (store : Bm25RetrievalArgs → Except PyError (List Document)) (query : String)
    (filters : Option Filters) (all_terms_must_match : Option Bool)
    (top_k : Option Int) (fuzziness : Option String) (scale_score : Option Bool)
    (custom_query : Option CustomQuery) :
    Except PyError RunOutput × OpenSearchBM25Retriever :=
  match store (r.queryArgs query filters all_terms_must_match top_k fuzziness
      scale_score custom_query) with
  | .ok docs => (.ok { documents := docs }, r)
  | .error e =>
    if r._raise_on_failure then (.error e, r)
    else (.ok { documents := [] }, r)

/-! ### Concrete sample objects used to instantiate the theorems -/

/-- A concrete Qdrant store. -/
def qStoreA : QdrantDocumentStore := ⟨"qdrant-sample-config"⟩

/-- A concrete OpenSearch store. -/
def osStoreA : OpenSearchDocumentStore := ⟨"opensearch-sample-config"⟩

/-- Dense retriever: REPLACE policy, default filters lang=en, top_k 10,
scale_score True. -/
def qembReplace : QdrantEmbeddingRetriever :=
  { _document_store := qStoreA
    _filters := some [("lang", "en")]
    _top_k := 10
    _scale_score := true
    _return_embedding := false
    _filter_policy := .replace
    _score_threshold := none }

/-- Dense retriever with the MERGE policy. -/
def qembMerge : QdrantEmbeddingRetriever :=
  { qembReplace with _filter_policy := .merge }

/-- Sparse retriever: REPLACE policy, default filters lang=en, top_k 10,
scale_score True. -/
def qsparseReplace : QdrantSparseEmbeddingRetriever :=
  { _document_store := qStoreA
    _filters := some [("lang", "en")]
    _top_k := 10
    _scale_score := true
    _return_embedding := false
    _filter_policy := .replace
    _score_threshold := none }

/-- Sparse retriever with the MERGE policy. -/
def qsparseMerge : QdrantSparseEmbeddingRetriever :=
  { qsparseReplace with _filter_policy := .merge }

/-- Hybrid retriever: REPLACE policy, default filters lang=en, top_k 10. -/
def qhybReplace : QdrantHybridRetriever :=
  { _document_store := qStoreA
    _filters := some [("lang", "en")]
    _top_k := 10
    _return_embedding := false
    _filter_policy := .replace
    _score_threshold := none }

/-- Hybrid retriever with the MERGE policy. -/
def qhybMerge : QdrantHybridRetriever :=
  { qhybReplace with _filter_policy := .merge }

/-- BM25 retriever: REPLACE policy, default filters lang=en, top_k 10,
scale_score True, raise_on_failure False. -/
def bm25Replace : OpenSearchBM25Retriever :=
  { _document_store := osStoreA
    _filters := [("lang", "en")]
    _fuzziness := "AUTO"
    _top_k := 10
    _scale_score := true
    _all_terms_must_match := false
    _filter_policy := .replace
    _custom_query := none
    _raise_on_failure := false }

/-- BM25 retriever with the MERGE policy. -/
def bm25Merge : OpenSearchBM25Retriever :=
  { bm25Replace with _filter_policy := .merge }

/-- BM25 retriever with `raise_on_failure` True. -/
def bm25Raising : OpenSearchBM25Retriever :=
  { bm25Replace with _raise_on_failure := true }

/-- BM25 retriever with `all_terms_must_match` True (the serialization
failing input). -/
def bm25Atmm : OpenSearchBM25Retriever :=
  { bm25Replace with _all_terms_must_match := true }

/-- A concrete sparse query embedding. -/
def sparseA : SparseEmbedding := { indices := [0, 3], values := [(1 : ℚ) / 2, 3] }

/-! ### Helper lemmas about the filter merge -/

/-- Keys present in the call-time filters win per field in `mergeFilters`. -/
theorem lookup_mergeFilters_right (dflt rt : Filters) (k v : String)
    (h : List.lookup k rt = some v) :
    List.lookup k (mergeFilters dflt rt) = some v := by
  induction dflt with
  | nil => simpa [mergeFilters] using h
  | cons p tl ih =>
    obtain ⟨pk, pv⟩ := p
    by_cases hkeep : (List.lookup pk rt).isNone
    · have hne : (k == pk) = false := by
        rcases eq_or_ne k pk with hkk | hkk
        · rw [hkk] at h
          rw [h] at hkeep
          simp at hkeep
        · simpa using hkk
      simp only [mergeFilters, List.filter_cons, hkeep, if_true, List.cons_append,
        List.lookup, hne] at ih ⊢
      exact ih
    · simp only [mergeFilters, List.filter_cons, hkeep, if_false] at ih ⊢
      exact ih

/-- Keys of the default filters that the call-time filters do not mention
survive `mergeFilters` with their default value. -/
theorem lookup_mergeFilters_left (dflt rt : Filters) (k : String)
    (h : List.lookup k rt = none) :
    List.lookup k (mergeFilters dflt rt) = List.lookup k dflt := by
  induction dflt with
  | nil => simpa [mergeFilters] using h
  | cons p tl ih =>
    obtain ⟨pk, pv⟩ := p
    by_cases hkeep : (List.lookup pk rt).isNone
    · rcases eq_or_ne k pk with hkk | hkk
      · subst hkk
        simp [mergeFilters, List.filter_cons, hkeep, List.lookup]
      · have hne : (k == pk) = false := by simpa using hkk
        simp only [mergeFilters, List.filter_cons, hkeep, if_true, List.cons_append,
          List.lookup, hne] at ih ⊢
        exact ih
    · have hkeepF : (List.lookup pk rt).isNone = false := by
        simpa using hkeep
      have hpk : ¬(List.lookup pk rt) = none := by
        intro hc
        rw [hc] at hkeepF
        simp at hkeepF
      have hne : (k == pk) = false := by
        rcases eq_or_ne k pk with hkk | hkk
        · exact absurd (hkk ▸ h) hpk
        · simpa using hkk
      simp [mergeFilters, List.filter_cons, hkeepF, List.lookup, hne] at ih ⊢
      exact ih

/-! ### Claim theorems -/

/-- Claim C1: with a configured default of `scale_score = True`, a call-time
override of `scale_score = False` is swallowed by the Python `or` in the two
or-based Qdrant variants — the value forwarded to the store stays `True`,
indistinguishable from not providing the override — while the BM25 variant
checks `is None` and forwards the explicit `False`. -/
theorem C1_scale_score_false_override
    (re : QdrantEmbeddingRetriever) (rs : QdrantSparseEmbeddingRetriever)
    (rb : OpenSearchBM25Retriever)
    (he : re._scale_score = true) (hs : rs._scale_score = true)
    (qe : List ℚ) (qs : SparseEmbedding) (q : String)
    (f fb : Option Filters) (tk tkb : Option Int) (ret : Option Bool)
    (st : Option ℚ) (atmm : Option Bool) (fz : Option String)
    (cq : Option CustomQuery) :
    (re.queryArgs qe f tk (some false) ret st).scale_score = true
  ∧ (rs.queryArgs qs f tk (some false) ret st).scale_score = true
  ∧ (rb.queryArgs q fb atmm tkb fz (some false) cq).scale_score = false := by
  refine ⟨?_, ?_, ?_⟩ <;>
    simp [QdrantEmbeddingRetriever.queryArgs, QdrantSparseEmbeddingRetriever.queryArgs,
      OpenSearchBM25Retriever.queryArgs, pyOrBool, he, hs]

/-- Witness for C1 at concrete retrievers whose default `scale_score` is
`True`. -/
theorem C1_scale_score_false_override_witness :
    qembReplace._scale_score = true ∧ qsparseReplace._scale_score = true
  ∧ ((qembReplace.queryArgs [] none none (some false) none none).scale_score = true
    ∧ (qsparseReplace.queryArgs sparseA none none (some false) none none).scale_score = true
    ∧ (bm25Replace.queryArgs "q" none none none none (some false) none).scale_score
        = false) :=
  ⟨rfl, rfl,
    C1_scale_score_false_override qembReplace qsparseReplace bm25Replace rfl rfl
      [] sparseA "q" none none none none none none none none none⟩

/-- Claim C2: when the store's `_bm25_retrieval` raises, `run` re-raises the
same exception exactly when `raise_on_failure` is `True`; with
`raise_on_failure = False` it does not raise and returns the empty documents
mapping (the warning it also logs is outside the model). -/
theorem C2_bm25_raise_on_failure
    (r : OpenSearchBM25Retriever)
    (store : Bm25RetrievalArgs → Except PyError (List Document))
    (q : String) (f : Option Filters) (atmm : Option Bool) (tk : Option Int)
    (fz : Option String) (ss : Option Bool) (cq : Option CustomQuery) (e : PyError)
    (hstore : store (r.queryArgs q f atmm tk fz ss cq) = .error e) :
    ((r.run store q f atmm tk fz ss cq).1 = .error e ↔ r._raise_on_failure = true)
  ∧ (r._raise_on_failure = false →
      (r.run store q f atmm tk fz ss cq).1 = .ok { documents := [] }) := by
  unfold OpenSearchBM25Retriever.run
  rw [hstore]
  cases hr : r._raise_on_failure <;> simp [hr]

/-- Witness for C2: a store that always raises, against the sample retriever
with `raise_on_failure = False`. -/
theorem C2_bm25_raise_on_failure_witness :
    ((fun _ : Bm25RetrievalArgs => (.error "boom" : Except PyError (List Document)))
        (bm25Replace.queryArgs "q" none none none none none none) = .error "boom")
  ∧ (((bm25Replace.run (fun _ => .error "boom") "q" none none none none none none).1
        = .error "boom" ↔ bm25Replace._raise_on_failure = true)
    ∧ (bm25Replace._raise_on_failure = false →
        (bm25Replace.run (fun _ => .error "boom") "q" none none none none none none).1
          = .ok { documents := [] })) :=
  ⟨rfl,
    C2_bm25_raise_on_failure bm25Replace (fun _ => .error "boom") "q" none none none
      none none none "boom" rfl⟩

/-- Claim C3: under the REPLACE policy every variant forwards the call-time
filters exactly when they are given, and the configured defaults when they
are absent. -/
theorem C3_replace_policy
    (rb : OpenSearchBM25Retriever) (rq : QdrantEmbeddingRetriever)
    (rs : QdrantSparseEmbeddingRetriever) (rh : QdrantHybridRetriever)
    (hb : rb._filter_policy = .replace) (hq : rq._filter_policy = .replace)
    (hs : rs._filter_policy = .replace) (hh : rh._filter_policy = .replace)
    (f : Filters) (q : String) (qe : List ℚ) (qs : SparseEmbedding)
    (atmm ss ret : Option Bool) (tk : Option Int) (fz : Option String)
    (cq : Option CustomQuery) (st : Option ℚ) :
    (rb.queryArgs q (some f) atmm tk fz ss cq).filters = f
  ∧ (rb.queryArgs q none atmm tk fz ss cq).filters = rb._filters
  ∧ (rq.queryArgs qe (some f) tk ss ret st).filters = some f
  ∧ (rq.queryArgs qe none tk ss ret st).filters = rq._filters
  ∧ (rs.queryArgs qs (some f) tk ss ret st).filters = some f
  ∧ (rs.queryArgs qs none tk ss ret st).filters = rs._filters
  ∧ (rh.queryArgs qe qs (some f) tk ret st).filters = some f
  ∧ (rh.queryArgs qe qs none tk ret st).filters = rh._filters := by
  refine ⟨?_, ?_, ?_, ?_, ?_, ?_, ?_, ?_⟩ <;>
    simp [OpenSearchBM25Retriever.queryArgs, QdrantEmbeddingRetriever.queryArgs,
      QdrantSparseEmbeddingRetriever.queryArgs, QdrantHybridRetriever.queryArgs,
      apply_filter_policy, hb, hq, hs, hh]

/-- Witness for C3: the spec's example — REPLACE with defaults lang=en and
call-time year=2020 forwards exactly year=2020, and with no call-time
filters forwards lang=en. -/
theorem C3_replace_policy_witness :
    bm25Replace._filter_policy = FilterPolicy.replace
  ∧ qembReplace._filter_policy = FilterPolicy.replace
  ∧ qsparseReplace._filter_policy = FilterPolicy.replace
  ∧ qhybReplace._filter_policy = FilterPolicy.replace
  ∧ ((bm25Replace.queryArgs "q" (some [("year", "2020")]) none none none none none).filters
        = [("year", "2020")]
    ∧ (bm25Replace.queryArgs "q" none none none none none none).filters
        = bm25Replace._filters
    ∧ (qembReplace.queryArgs [] (some [("year", "2020")]) none none none none).filters
        = some [("year", "2020")]
    ∧ (qembReplace.queryArgs [] none none none none none).filters = qembReplace._filters
    ∧ (qsparseReplace.queryArgs sparseA (some [("year", "2020")]) none none none
        none).filters = some [("year", "2020")]
    ∧ (qsparseReplace.queryArgs sparseA none none none none none).filters
        = qsparseReplace._filters
    ∧ (qhybReplace.queryArgs [] sparseA (some [("year", "2020")]) none none none).filters
        = some [("year", "2020")]
    ∧ (qhybReplace.queryArgs [] sparseA none none none none).filters
        = qhybReplace._filters) :=
  ⟨rfl, rfl, rfl, rfl,
    C3_replace_policy bm25Replace qembReplace qsparseReplace qhybReplace rfl rfl rfl rfl
      [("year", "2020")] "q" [] sparseA none none none none none none none⟩

/-- Claim C4: under the MERGE policy, with default filters lang=en and
call-time filters year=2020, every variant forwards filters carrying both
fields; in general the merge is a field-level union in which a field present
in the call-time filters wins and a field only in the defaults keeps its
default value. -/
theorem C4_merge_policy
    (rb : OpenSearchBM25Retriever) (rq : QdrantEmbeddingRetriever)
    (rs : QdrantSparseEmbeddingRetriever) (rh : QdrantHybridRetriever)
    (hb : rb._filter_policy = .merge) (hq : rq._filter_policy = .merge)
    (hs : rs._filter_policy = .merge) (hh : rh._filter_policy = .merge)
    (hbf : rb._filters = [("lang", "en")])
    (hqf : rq._filters = some [("lang", "en")])
    (hsf : rs._filters = some [("lang", "en")])
    (hhf : rh._filters = some [("lang", "en")])
    (q : String) (qe : List ℚ) (qs : SparseEmbedding)
    (atmm ss ret : Option Bool) (tk : Option Int) (fz : Option String)
    (cq : Option CustomQuery) (st : Option ℚ) :
    (rb.queryArgs q (some [("year", "2020")]) atmm tk fz ss cq).filters
        = [("lang", "en"), ("year", "2020")]
  ∧ (rq.queryArgs qe (some [("year", "2020")]) tk ss ret st).filters
        = some [("lang", "en"), ("year", "2020")]
  ∧ (rs.queryArgs qs (some [("year", "2020")]) tk ss ret st).filters
        = some [("lang", "en"), ("year", "2020")]
  ∧ (rh.queryArgs qe qs (some [("year", "2020")]) tk ret st).filters
        = some [("lang", "en"), ("year", "2020")]
  ∧ (∀ dflt rt : Filters, ∀ k v : String, List.lookup k rt = some v →
      List.lookup k (mergeFilters dflt rt) = some v)
  ∧ (∀ dflt rt : Filters, ∀ k : String, List.lookup k rt = none →
      List.lookup k (mergeFilters dflt rt) = List.lookup k dflt) := by
  refine ⟨?_, ?_, ?_, ?_, lookup_mergeFilters_right, lookup_mergeFilters_left⟩ <;>
    simp [OpenSearchBM25Retriever.queryArgs, QdrantEmbeddingRetriever.queryArgs,
      QdrantSparseEmbeddingRetriever.queryArgs, QdrantHybridRetriever.queryArgs,
      apply_filter_policy, mergeFilters, List.lookup, hb, hq, hs, hh, hbf, hqf, hsf, hhf]

/-- Witness for C4 at the concrete MERGE-policy sample retrievers. -/
theorem C4_merge_policy_witness :
    bm25Merge._filter_policy = FilterPolicy.merge
  ∧ qembMerge._filter_policy = FilterPolicy.merge
  ∧ qsparseMerge._filter_policy = FilterPolicy.merge
  ∧ qhybMerge._filter_policy = FilterPolicy.merge
  ∧ bm25Merge._filters = [("lang", "en")]
  ∧ qembMerge._filters = some [("lang", "en")]
  ∧ ((bm25Merge.queryArgs "q" (some [("year", "2020")]) none none none none none).filters
        = [("lang", "en"), ("year", "2020")]
    ∧ (qembMerge.queryArgs [] (some [("year", "2020")]) none none none none).filters
        = some [("lang", "en"), ("year", "2020")]
    ∧ (qsparseMerge.queryArgs sparseA (some [("year", "2020")]) none none none
        none).filters = some [("lang", "en"), ("year", "2020")]
    ∧ (qhybMerge.queryArgs [] sparseA (some [("year", "2020")]) none none none).filters
        = some [("lang", "en"), ("year", "2020")]
    ∧ (∀ dflt rt : Filters, ∀ k v : String, List.lookup k rt = some v →
        List.lookup k (mergeFilters dflt rt) = some v)
    ∧ (∀ dflt rt : Filters, ∀ k : String, List.lookup k rt = none →
        List.lookup k (mergeFilters dflt rt) = List.lookup k dflt)) :=
  ⟨rfl, rfl, rfl, rfl, rfl, rfl,
    C4_merge_policy bm25Merge qembMerge qsparseMerge qhybMerge rfl rfl rfl rfl
      rfl rfl rfl rfl "q" [] sparseA none none none none none none none⟩

/-- Claim C5 is false on the code: `OpenSearchBM25Retriever.to_dict` never
writes `all_terms_must_match`, so the round-trip of a retriever configured
with `all_terms_must_match = True` silently resets it to the constructor
default `False`; the three Qdrant variants do round-trip their entire
configuration. -/
theorem C5_roundtrip_loses_all_terms_must_match :
    (bm25Atmm._all_terms_must_match = true
      ∧ OpenSearchBM25Retriever.from_dict bm25Atmm.to_dict
          = .ok { bm25Atmm with _all_terms_must_match := false }
      ∧ OpenSearchBM25Retriever.from_dict bm25Atmm.to_dict ≠ .ok bm25Atmm)
  ∧ (∀ r : QdrantEmbeddingRetriever, QdrantEmbeddingRetriever.from_dict r.to_dict = .ok r)
  ∧ (∀ r : QdrantSparseEmbeddingRetriever,
      QdrantSparseEmbeddingRetriever.from_dict r.to_dict = .ok r)
  ∧ (∀ r : QdrantHybridRetriever, QdrantHybridRetriever.from_dict r.to_dict = .ok r) := by
  have hroundtrip : OpenSearchBM25Retriever.from_dict bm25Atmm.to_dict
      = .ok { bm25Atmm with _all_terms_must_match := false } := rfl
  refine ⟨⟨rfl, hroundtrip, ?_⟩, ?_, ?_, ?_⟩
  · intro hc
    rw [hroundtrip] at hc
    have hfields := Except.ok.inj hc
    have hf := congrArg OpenSearchBM25Retriever._all_terms_must_match hfields
    simp [bm25Atmm, bm25Replace] at hf
  · intro r
    obtain ⟨⟨c⟩, f, tk, ss, ret, p, st⟩ := r
    cases p <;> rfl
  · intro r
    obtain ⟨⟨c⟩, f, tk, ss, ret, p, st⟩ := r
    cases p <;> rfl
  · intro r
    obtain ⟨⟨c⟩, f, tk, ret, p, st⟩ := r
    cases p <;> rfl

/-- Claim C6: top_k resolution — with configured default top_k = 10, a
call-time top_k = 5 is forwarded as 5 and an unset call-time top_k is
forwarded as 10, in every variant. -/
theorem C6_top_k_resolution
    (rb : OpenSearchBM25Retriever) (rq : QdrantEmbeddingRetriever)
    (rs : QdrantSparseEmbeddingRetriever) (rh : QdrantHybridRetriever)
    (hb : rb._top_k = 10) (hq : rq._top_k = 10) (hs : rs._top_k = 10)
    (hh : rh._top_k = 10)
    (q : String) (qe : List ℚ) (qs : SparseEmbedding) (f fb : Option Filters)
    (atmm ss ret : Option Bool) (fz : Option String) (cq : Option CustomQuery)
    (st : Option ℚ) :
    (rb.queryArgs q fb atmm (some 5) fz ss cq).top_k = 5
  ∧ (rb.queryArgs q fb atmm none fz ss cq).top_k = 10
  ∧ (rq.queryArgs qe f (some 5) ss ret st).top_k = 5
  ∧ (rq.queryArgs qe f none ss ret st).top_k = 10
  ∧ (rs.queryArgs qs f (some 5) ss ret st).top_k = 5
  ∧ (rs.queryArgs qs f none ss ret st).top_k = 10
  ∧ (rh.queryArgs qe qs f (some 5) ret st).top_k = 5
  ∧ (rh.queryArgs qe qs f none ret st).top_k = 10 := by
  refine ⟨?_, ?_, ?_, ?_, ?_, ?_, ?_, ?_⟩ <;>
    simp [OpenSearchBM25Retriever.queryArgs, QdrantEmbeddingRetriever.queryArgs,
      QdrantSparseEmbeddingRetriever.queryArgs, QdrantHybridRetriever.queryArgs,
      pyOrInt, hb, hq, hs, hh]

/-- Witness for C6 at the concrete sample retrievers, all configured with
top_k = 10. -/
theorem C6_top_k_resolution_witness :
    bm25Replace._top_k = 10 ∧ qembReplace._top_k = 10 ∧ qsparseReplace._top_k = 10
  ∧ qhybReplace._top_k = 10
  ∧ ((bm25Replace.queryArgs "q" none none (some 5) none none none).top_k = 5
    ∧ (bm25Replace.queryArgs "q" none none none none none none).top_k = 10
    ∧ (qembReplace.queryArgs [] none (some 5) none none none).top_k = 5
    ∧ (qembReplace.queryArgs [] none none none none none).top_k = 10
    ∧ (qsparseReplace.queryArgs sparseA none (some 5) none none none).top_k = 5
    ∧ (qsparseReplace.queryArgs sparseA none none none none none).top_k = 10
    ∧ (qhybReplace.queryArgs [] sparseA none (some 5) none none).top_k = 5
    ∧ (qhybReplace.queryArgs [] sparseA none none none none).top_k = 10) :=
  ⟨rfl, rfl, rfl, rfl,
    C6_top_k_resolution bm25Replace qembReplace qsparseReplace qhybReplace rfl rfl rfl rfl
      "q" [] sparseA none none none none none none none none⟩

/-- Claim C7: every variant's constructor rejects a `document_store` of the
wrong type — any non-store object, or the other backend's store — with the
`ValueError` message of its `isinstance` guard, and the `Except.error` result
carries no retriever, so no partially constructed object exists. -/
theorem C7_wrong_store_type
    (tag : String) (os : OpenSearchDocumentStore) (qds : QdrantDocumentStore)
    (f : Option Filters) (tk : Int) (ss ret : Bool) (pol : FilterPolicyArg)
    (st : Option ℚ) (fz : String) (atmm : Bool) (cq : Option CustomQuery)
    (rof : Bool) :
    QdrantEmbeddingRetriever.init (.other tag) f tk ss ret pol st
        = .error "document_store must be an instance of QdrantDocumentStore"
  ∧ QdrantEmbeddingRetriever.init (.opensearchStore os) f tk ss ret pol st
        = .error "document_store must be an instance of QdrantDocumentStore"
  ∧ QdrantSparseEmbeddingRetriever.init (.other tag) f tk ss ret pol st
        = .error "document_store must be an instance of QdrantDocumentStore"
  ∧ QdrantSparseEmbeddingRetriever.init (.opensearchStore os) f tk ss ret pol st
        = .error "document_store must be an instance of QdrantDocumentStore"
  ∧ QdrantHybridRetriever.init (.other tag) f tk ret pol st
        = .error "document_store must be an instance of QdrantDocumentStore"
  ∧ QdrantHybridRetriever.init (.opensearchStore os) f tk ret pol st
        = .error "document_store must be an instance of QdrantDocumentStore"
  ∧ OpenSearchBM25Retriever.init (.other tag) f fz tk ss atmm pol cq rof
        = .error "document_store must be an instance of OpenSearchDocumentStore"
  ∧ OpenSearchBM25Retriever.init (.qdrantStore qds) f fz tk ss atmm pol cq rof
        = .error "document_store must be an instance of OpenSearchDocumentStore" :=
  ⟨rfl, rfl, rfl, rfl, rfl, rfl, rfl, rfl⟩

/-- Claim C8: in the three Qdrant variants, a store exception comes back to
the caller unchanged — there is no try/except around the store call and no
fallback result. -/
theorem C8_qdrant_error_propagation
    (rq : QdrantEmbeddingRetriever) (rs : QdrantSparseEmbeddingRetriever)
    (rh : QdrantHybridRetriever)
    (storeE : QueryByEmbeddingArgs → Except PyError (List Document))
    (storeS : QueryBySparseArgs → Except PyError (List Document))
    (storeH : QueryHybridArgs → Except PyError (List Document))
    (qe : List ℚ) (qs : SparseEmbedding) (f : Option Filters) (tk : Option Int)
    (ss ret : Option Bool) (st : Option ℚ) (e : PyError)
    (hE : storeE (rq.queryArgs qe f tk ss ret st) = .error e)
    (hS : storeS (rs.queryArgs qs f tk ss ret st) = .error e)
    (hH : storeH (rh.queryArgs qe qs f tk ret st) = .error e) :
    (rq.run storeE qe f tk ss ret st).1 = .error e
  ∧ (rs.run storeS qs f tk ss ret st).1 = .error e
  ∧ (rh.run storeH qe qs f tk ret st).1 = .error e := by
  refine ⟨?_, ?_, ?_⟩
  · unfold QdrantEmbeddingRetriever.run
    rw [hE]
  · unfold QdrantSparseEmbeddingRetriever.run
    rw [hS]
  · unfold QdrantHybridRetriever.run
    rw [hH]

/-- Witness for C8: a store that always raises, against the sample
retrievers. -/
theorem C8_qdrant_error_propagation_witness :
    ((fun _ : QueryByEmbeddingArgs => (.error "boom" : Except PyError (List Document)))
        (qembReplace.queryArgs [] none none none none none) = .error "boom")
  ∧ ((fun _ : QueryBySparseArgs => (.error "boom" : Except PyError (List Document)))
        (qsparseReplace.queryArgs sparseA none none none none none) = .error "boom")
  ∧ ((fun _ : QueryHybridArgs => (.error "boom" : Except PyError (List Document)))
        (qhybReplace.queryArgs [] sparseA none none none none) = .error "boom")
  ∧ ((qembReplace.run (fun _ => .error "boom") [] none none none none none).1
        = .error "boom"
    ∧ (qsparseReplace.run (fun _ => .error "boom") sparseA none none none none none).1
        = .error "boom"
    ∧ (qhybReplace.run (fun _ => .error "boom") [] sparseA none none none none).1
        = .error "boom") :=
  ⟨rfl, rfl, rfl,
    C8_qdrant_error_propagation qembReplace qsparseReplace qhybReplace
      (fun _ => .error "boom") (fun _ => .error "boom") (fun _ => .error "boom")
      [] sparseA none none none none none "boom" rfl rfl rfl⟩

/-- Claim C9: `run` never changes the retriever's configuration — in every
variant, for every store behaviour and every combination of call-time
overrides, the post-state returned alongside the result (or alongside the
propagated exception) is the receiver itself. -/
theorem C9_run_preserves_configuration
    (rq : QdrantEmbeddingRetriever) (rs : QdrantSparseEmbeddingRetriever)
    (rh : QdrantHybridRetriever) (rb : OpenSearchBM25Retriever)
    (storeE : QueryByEmbeddingArgs → Except PyError (List Document))
    (storeS : QueryBySparseArgs → Except PyError (List Document))
    (storeH : QueryHybridArgs → Except PyError (List Document))
    (storeB : Bm25RetrievalArgs → Except PyError (List Document))
    (q : String) (qe : List ℚ) (qs : SparseEmbedding) (f fb : Option Filters)
    (tk tkb : Option Int) (ss ssb ret atmm : Option Bool) (fz : Option String)
    (cq : Option CustomQuery) (st : Option ℚ) :
    (rq.run storeE qe f tk ss ret st).2 = rq
  ∧ (rs.run storeS qs f tk ss ret st).2 = rs
  ∧ (rh.run storeH qe qs f tk ret st).2 = rh
  ∧ (rb.run storeB q fb atmm tkb fz ssb cq).2 = rb := by
  refine ⟨?_, ?_, ?_, ?_⟩
  · unfold QdrantEmbeddingRetriever.run
    cases storeE (rq.queryArgs qe f tk ss ret st) <;> rfl
  · unfold QdrantSparseEmbeddingRetriever.run
    cases storeS (rs.queryArgs qs f tk ss ret st) <;> rfl
  · unfold QdrantHybridRetriever.run
    cases storeH (rh.queryArgs qe qs f tk ret st) <;> rfl
  · unfold OpenSearchBM25Retriever.run
    cases storeB (rb.queryArgs q fb atmm tkb fz ssb cq)
    · cases hrof : rb._raise_on_failure <;> simp [hrof]
    · rfl

/-- Claim C10: the Python-`or` fallback in the Qdrant variants also swallows
falsy numeric overrides — a call-time top_k of 0 and a call-time
score_threshold of 0.0 both resolve to the configured defaults — while the
BM25 variant's `is None` check forwards a call-time top_k of 0 as 0. -/
theorem C10_truthy_numeric_fallback
    (rq : QdrantEmbeddingRetriever) (rs : QdrantSparseEmbeddingRetriever)
    (rh : QdrantHybridRetriever) (rb : OpenSearchBM25Retriever)
    (q : String) (qe : List ℚ) (qs : SparseEmbedding) (f fb : Option Filters)
    (tk : Option Int) (ss ssb ret atmm : Option Bool) (fz : Option String)
    (cq : Option CustomQuery) (st : Option ℚ) :
    (rq.queryArgs qe f (some 0) ss ret st).top_k = rq._top_k
  ∧ (rq.queryArgs qe f tk ss ret (some 0)).score_threshold = rq._score_threshold
  ∧ (rs.queryArgs qs f (some 0) ss ret st).top_k = rs._top_k
  ∧ (rs.queryArgs qs f tk ss ret (some 0)).score_threshold = rs._score_threshold
  ∧ (rh.queryArgs qe qs f (some 0) ret st).top_k = rh._top_k
  ∧ (rh.queryArgs qe qs f tk ret (some 0)).score_threshold = rh._score_threshold
  ∧ (rb.queryArgs q fb atmm (some 0) fz ssb cq).top_k = 0 := by
  refine ⟨?_, ?_, ?_, ?_, ?_, ?_, ?_⟩ <;>
    simp [QdrantEmbeddingRetriever.queryArgs, QdrantSparseEmbeddingRetriever.queryArgs,
      QdrantHybridRetriever.queryArgs, OpenSearchBM25Retriever.queryArgs,
      pyOrInt, pyOrOptRat]

end HaystackRetrievers
